import Mathlib

/-!
Shallow embedding of `plugins/OpenAIAPI/main.py`: an OpenAI-compatible HTTP
gateway plugin.  The forwarding handler `create_chat_completion`, the model
listing `list_models`, and the plugin lifecycle (`__init__`, `on_enable`,
`on_disable`) are translated into pure Lean functions.  I/O boundaries
(config file reads, the inbound JSON parse, the upstream HTTP call) are
passed in as `Except`-valued parameters, so a raised Python exception is an
`.error` value.
-/

/-- JSON values, as far as the gateway inspects them.  Numbers are modelled
as rationals (the Python floats in play, e.g. `0.7`, are decimal literals). -/
inductive JVal where
  | null
  | bool (b : Bool)
  | num (q : Rat)
  | str (s : String)
  | arr (elems : List JVal)
  | obj (fields : List (String × JVal))

/-- A JSON object body: an order-preserving string-keyed association list
(first match wins on lookup, as keys are unique in a Python dict). -/
abbrev Body := List (String × JVal)

/-- `removeAllAux fuel pat s` removes every non-overlapping occurrence of
`pat` from `s`, scanning left to right — the semantics of Python's
`str.replace(pat, "")`.  Fuel-structured so the kernel evaluates it. -/
def removeAllAux (fuel : Nat) (pat : List Char) (s : List Char) : List Char :=
  match fuel, s with
  | 0, s => s
  | _, [] => []
  | fuel + 1, c :: rest =>
    if pat ≠ [] ∧ pat.isPrefixOf (c :: rest) then
      removeAllAux fuel pat ((c :: rest).drop pat.length)
    else
      c :: removeAllAux fuel pat rest

/-- Python `s.replace(pat, "")`: delete all occurrences of `pat` in `s`. -/
def pyRemoveAll (s pat : String) : String :=
  ⟨removeAllAux s.data.length pat.data s.data⟩

/-- The forwarding-relevant plugin configuration (`self.api_key`, … in
`OpenAIAPI.__init__`). -/
structure Config where
  api_key : String
  base_url : String
  default_model : String
  available_models : List String
  http_proxy : String
  max_tokens : Int
  temperature : JVal
  top_p : JVal
  frequency_penalty : JVal
  presence_penalty : JVal

/-- Line 135: `request.headers.get("Authorization", "").replace("Bearer ", "")`.
`none` models an absent `Authorization` header. -/
def extractToken (authHeader : Option String) : String :=
  pyRemoveAll (authHeader.getD "") "Bearer "

/-- Lines 138–147: outbound header dict.  Starts with `Content-Type`; the
configured key wins when non-empty (Python string truthiness), else the
caller's extracted token when non-empty, else no `Authorization` entry. -/
def buildHeaders (cfg : Config) (api_key : String) : List (String × String) :=
  let headers : List (String × String) := [("Content-Type", "application/json")]
  if cfg.api_key ≠ "" then
    headers ++ [("Authorization", "Bearer " ++ cfg.api_key)]
  else if api_key ≠ "" then
    headers ++ [("Authorization", "Bearer " ++ api_key)]
  else
    headers

/-- Python `k in body` on a dict. -/
def hasKey (body : Body) (k : String) : Bool :=
  body.any (fun p => p.1 == k)

/-- `if k not in body: body[k] = v` — dict insertion appends a fresh key at
the end, leaving all present entries untouched. -/
def setDefault (body : Body) (k : String) (v : JVal) : Body :=
  if hasKey body k then body else body ++ [(k, v)]

/-- Line 156: `if "max_tokens" not in body and self.max_tokens > 0`. -/
def setDefaultMaxTokens (cfg : Config) (body : Body) : Body :=
  if ¬ hasKey body "max_tokens" ∧ cfg.max_tokens > 0 then
    body ++ [("max_tokens", JVal.num (cfg.max_tokens : Rat))]
  else body

/-- Lines 152–169: fill absent fields with configured defaults, in source
order (`model`, `max_tokens`, `temperature`, `top_p`, `frequency_penalty`,
`presence_penalty`). -/
def mergeBody (cfg : Config) (body : Body) : Body :=
  let b1 := setDefault body "model" (JVal.str cfg.default_model)
  let b2 := setDefaultMaxTokens cfg b1
  let b3 := setDefault b2 "temperature" cfg.temperature
  let b4 := setDefault b3 "top_p" cfg.top_p
  let b5 := setDefault b4 "frequency_penalty" cfg.frequency_penalty
  setDefault b5 "presence_penalty" cfg.presence_penalty

/-- The six body fields the handler inspects. -/
def knownKeys : List String :=
  ["model", "max_tokens", "temperature", "top_p", "frequency_penalty",
   "presence_penalty"]

/-- The single outbound POST issued at lines 172–178. -/
structure OutboundReq where
  url : String
  headers : List (String × String)
  body : Body
  proxy : Option String

/-- Lines 135–178 up to the network call: extract the caller token, build
headers, resolve the proxy (line 150), merge defaults, aim at
`<base_url>/chat/completions`. -/
def outboundRequest (cfg : Config) (authHeader : Option String) (body : Body) :
    OutboundReq :=
  ⟨cfg.base_url ++ "/chat/completions",
   buildHeaders cfg (extractToken authHeader),
   mergeBody cfg body,
   if cfg.http_proxy ≠ "" then some cfg.http_proxy else none⟩

/-- Lines 193–202: the fixed-shape error envelope returned with HTTP 500. -/
def errorEnvelope (msg : String) : JVal :=
  JVal.obj [("error", JVal.obj
    [("message", JVal.str msg),
     ("type", JVal.str "server_error"),
     ("code", JVal.str "internal_server_error")])]

/-- Line 197: `f"处理请求失败: {str(e)}"`. -/
def handlerErrorMessage (e : String) : String := "处理请求失败: " ++ e

/-- An HTTP response to the original caller: status code and JSON body. -/
structure HttpResponse where
  status : Nat
  body : JVal

/-- Lines 128–202, the whole `POST /v1/chat/completions` handler.
`parseResult` is the outcome of `await request.json()`; `upstream` is the
environment: what `session.post` + `response.json()` yield for a given
outbound request (`.error` = a raised exception).  The surrounding
`try/except` turns any raised exception into the 500 envelope, so the
handler is total. -/
def create_chat_completion (cfg : Config) (parseResult : Except String Body)
    (authHeader : Option String)
    (upstream : OutboundReq → Except String (Nat × JVal)) : HttpResponse :=
  match parseResult with
  | .error e => ⟨500, errorEnvelope (handlerErrorMessage e)⟩
  | .ok body =>
    match upstream (outboundRequest cfg authHeader body) with
    | .ok (status, j) => ⟨status, j⟩
    | .error e => ⟨500, errorEnvelope (handlerErrorMessage e)⟩

/-- Lines 110–125: the `GET /v1/models` handler.  `now` is `int(time.time())`
at handling time; the handler consults nothing but the configured list (no
upstream parameter appears). -/
def list_models (available_models : List String) (now : Int) : JVal :=
  JVal.obj
    [("object", JVal.str "list"),
     ("data", JVal.arr (available_models.map (fun model_id =>
        JVal.obj
          [("id", JVal.str model_id),
           ("object", JVal.str "model"),
           ("created", JVal.num (now : Rat)),
           ("owned_by", JVal.str "organization-owner")])))]

/-- Field access on a JSON object (`none` on non-objects / missing keys). -/
def jGet (v : JVal) (k : String) : Option JVal :=
  match v with
  | JVal.obj fields => fields.lookup k
  | _ => none

/-- Array contents of a JSON value (`none` on non-arrays). -/
def jItems (v : JVal) : Option (List JVal) :=
  match v with
  | JVal.arr elems => some elems
  | _ => none

/-- The configured default injected for each always-filled field at
lines 152–169. -/
def defaultJVal (cfg : Config) (k : String) : JVal :=
  if k = "model" then JVal.str cfg.default_model
  else if k = "temperature" then cfg.temperature
  else if k = "top_p" then cfg.top_p
  else if k = "frequency_penalty" then cfg.frequency_penalty
  else if k = "presence_penalty" then cfg.presence_penalty
  else JVal.null

/-- The token extraction as the specification's words describe it: strip one
leading `Bearer ` prefix when present, leave the rest of the value intact. -/
def specExtractToken (authHeader : Option String) : String :=
  let v := authHeader.getD ""
  if ("Bearer ".data).isPrefixOf v.data then ⟨v.data.drop 7⟩ else v

/-- The parsed `[OpenAIAPI]` table of the plugin's `config.toml`: each key the
constructor reads, `none` when the key is missing (so `dict.get`'s default
applies). -/
structure PluginToml where
  enable : Option Bool
  api_key : Option String
  base_url : Option String
  default_model : Option String
  available_models : Option (List String)
  port : Option Int
  host : Option String
  command_tip : Option String
  http_proxy : Option String
  price : Option Int
  admin_ignore : Option Bool
  whitelist_ignore : Option Bool
  max_tokens : Option Int
  temperature : Option JVal
  top_p : Option JVal
  frequency_penalty : Option JVal
  presence_penalty : Option JVal

/-- The part of `main_config.toml` the constructor reads:
`main_config.get("XYBot", {}).get("admins", [])`. -/
structure MainToml where
  xybot_admins : Option (List String)

/-- A `uvicorn.Server` as far as the plugin touches it: its `should_exit`
flag. -/
structure Server where
  should_exit : Bool

/-- Everything `OpenAIAPI.__init__`'s `try` block assigns before the `server`
field (minus the FastAPI app and DB handle, which carry no plugin state). -/
structure ReadyCfg where
  enable : Bool
  cfg : Config
  port : Int
  host : String
  command_tip : String
  price : Int
  admin_ignore : Bool
  whitelist_ignore : Bool
  admins : List String

/-- The plugin object after construction.  `failed` is the state left by the
`except` branch at lines 102–105 when the raised exception pre-dates the
`self.server = None` assignment at line 94 (true of both config-file reads):
only `self.enable = False` was (re)assigned, and in particular the `server`
attribute does not exist.  `ready r server` is a fully constructed object;
`server = none` models `self.server = None`. -/
inductive PluginState where
  | failed
  | ready (r : ReadyCfg) (server : Option Server)

/-- Lines 30–105, `OpenAIAPI.__init__`.  The two file-read/parse outcomes are
parameters; the main config is read first, so a failure there means the
plugin config is never read.  On success every field falls back to the
documented default; on either failure the `except` branch yields `failed`
(with `enable = False`). -/
def pluginInit (mainRead : Except String MainToml)
    (pluginRead : Except String PluginToml) : PluginState :=
  match mainRead with
  | .error _ => PluginState.failed
  | .ok mc =>
    match pluginRead with
    | .error _ => PluginState.failed
    | .ok pc =>
      PluginState.ready
        ⟨pc.enable.getD false,
         ⟨pc.api_key.getD "",
          pc.base_url.getD "https://api.openai.com/v1",
          pc.default_model.getD "gpt-3.5-turbo",
          pc.available_models.getD ["gpt-3.5-turbo"],
          pc.http_proxy.getD "",
          pc.max_tokens.getD 4096,
          pc.temperature.getD (JVal.num (0.7 : Rat)),
          pc.top_p.getD (JVal.num (1 : Rat)),
          pc.frequency_penalty.getD (JVal.num (0 : Rat)),
          pc.presence_penalty.getD (JVal.num (0 : Rat))⟩,
         pc.port.getD 8100,
         pc.host.getD "0.0.0.0",
         pc.command_tip.getD "",
         pc.price.getD 0,
         pc.admin_ignore.getD true,
         pc.whitelist_ignore.getD true,
         mc.xybot_admins.getD []⟩
        none

/-- The value `self.enable` reads after construction (the `except` branch
assigns `False`, so the attribute exists in every state). -/
def enableFlag : PluginState → Bool
  | PluginState.failed => false
  | PluginState.ready r _ => r.enable

/-- What `on_enable` (lines 238–265) does: whether the server thread is
started, and to which admins a notification send is attempted.  `bot` is
whether a bot handle was passed (`if bot and self.command_tip:`); per-admin
send failures are caught inside the loop and do not shorten the list of
attempts. -/
structure EnableOutcome where
  serverStarted : Bool
  notifyTargets : List String

def on_enable (st : PluginState) (bot : Bool) : EnableOutcome :=
  match st with
  | PluginState.failed => ⟨false, []⟩
  | PluginState.ready r _ =>
    if r.enable then
      ⟨true, if bot ∧ r.command_tip ≠ "" then r.admins else []⟩
    else
      ⟨false, []⟩

/-- Lines 267–273, `on_disable`: `if self.server: self.server.should_exit =
True`.  Reading `self.server` in the `failed` state raises `AttributeError`
(the attribute was never assigned); otherwise a `None` server is falsy and
the call is a no-op, and a live server gets its `should_exit` flag set. -/
def on_disable (st : PluginState) : Except String PluginState :=
  match st with
  | PluginState.failed =>
      Except.error "AttributeError: 'OpenAIAPI' object has no attribute 'server'"
  | PluginState.ready r server =>
    match server with
    | none => Except.ok (PluginState.ready r none)
    | some _ => Except.ok (PluginState.ready r (some ⟨true⟩))

lemma hasKey_append (b₁ b₂ : Body) (k : String) :
    hasKey (b₁ ++ b₂) k = (hasKey b₁ k || hasKey b₂ k) := by
  simp [hasKey, List.any_append]

lemma hasKey_cons (p : String × JVal) (rest : Body) (k : String) :
    hasKey (p :: rest) k = ((p.1 == k) || hasKey rest k) := by
  simp [hasKey, List.any_cons]

lemma lookup_cons_pair (p : String × JVal) (rest : Body) (k : String) :
    List.lookup k (p :: rest) =
      if k == p.1 then some p.2 else List.lookup k rest := by
  obtain ⟨a, v⟩ := p
  simp only [List.lookup]
  by_cases h : k == a
  · simp [h]
  · simp only [Bool.not_eq_true] at h
    simp [h]

lemma lookup_eq_none_of_not_hasKey (b : Body) (k : String)
    (h : hasKey b k = false) : b.lookup k = none := by
  induction b with
  | nil => rfl
  | cons p rest ih =>
    rw [hasKey_cons, Bool.or_eq_false_iff] at h
    have h1 : (k == p.1) = false := by
      rw [beq_eq_false_iff_ne] at h ⊢
      exact fun e => h.1 e.symm
    rw [lookup_cons_pair, if_neg (by simp [h1])]
    exact ih h.2

lemma lookup_append_right (b₁ b₂ : Body) (k : String)
    (h : hasKey b₁ k = false) :
    (b₁ ++ b₂).lookup k = b₂.lookup k := by
  induction b₁ with
  | nil => rfl
  | cons p rest ih =>
    rw [hasKey_cons, Bool.or_eq_false_iff] at h
    have h1 : (k == p.1) = false := by
      rw [beq_eq_false_iff_ne] at h ⊢
      exact fun e => h.1 e.symm
    rw [List.cons_append, lookup_cons_pair, if_neg (by simp [h1])]
    exact ih h.2

lemma lookup_append_left (b₁ b₂ : Body) (k : String)
    (h : hasKey b₁ k = true) :
    (b₁ ++ b₂).lookup k = b₁.lookup k := by
  induction b₁ with
  | nil => rw [hasKey] at h; simp at h
  | cons p rest ih =>
    by_cases hpk : (k == p.1) = true
    · rw [List.cons_append, lookup_cons_pair, lookup_cons_pair, if_pos hpk,
        if_pos hpk]
    · have hpk' : (k == p.1) = false := by
        simpa using hpk
      rw [hasKey_cons, Bool.or_eq_true_iff] at h
      rcases h with h | h
      · rw [beq_eq_false_iff_ne] at hpk'
        rw [beq_iff_eq] at h
        exact absurd h.symm hpk'
      · rw [List.cons_append, lookup_cons_pair, lookup_cons_pair,
          if_neg (by simp [hpk']), if_neg (by simp [hpk'])]
        exact ih h

lemma lookup_setDefault_self (b : Body) (k : String) (v : JVal) :
    (setDefault b k v).lookup k =
      if hasKey b k then b.lookup k else some v := by
  unfold setDefault
  by_cases h : hasKey b k
  · simp [h]
  · simp only [Bool.not_eq_true] at h
    rw [if_neg (by simp [h]), if_neg (by simp [h]),
      lookup_append_right b _ k h, lookup_cons_pair]
    simp

lemma lookup_setDefault_ne (b : Body) (k k' : String) (v : JVal)
    (h : k' ≠ k) : (setDefault b k v).lookup k' = b.lookup k' := by
  unfold setDefault
  by_cases hb : hasKey b k
  · rw [if_pos hb]
  · rw [if_neg hb]
    by_cases hk' : hasKey b k'
    · rw [lookup_append_left b _ k' hk']
    · simp only [Bool.not_eq_true] at hk'
      rw [lookup_append_right b _ k' hk', lookup_cons_pair,
        if_neg (by simp [h]), lookup_eq_none_of_not_hasKey b k' hk']
      rfl

lemma hasKey_setDefault_ne (b : Body) (k k' : String) (v : JVal)
    (h : k' ≠ k) : hasKey (setDefault b k v) k' = hasKey b k' := by
  unfold setDefault
  by_cases hb : hasKey b k
  · rw [if_pos hb]
  · rw [if_neg hb, hasKey_append, hasKey_cons]
    have : (k == k') = false := by
      rw [beq_eq_false_iff_ne]; exact fun e => h e.symm
    simp [this, hasKey]

lemma lookup_setDefaultMaxTokens_self (cfg : Config) (b : Body) :
    (setDefaultMaxTokens cfg b).lookup "max_tokens" =
      if hasKey b "max_tokens" = false ∧ cfg.max_tokens > 0 then
        some (JVal.num (cfg.max_tokens : Rat))
      else b.lookup "max_tokens" := by
  unfold setDefaultMaxTokens
  by_cases h : ¬ hasKey b "max_tokens" = true ∧ cfg.max_tokens > 0
  · rw [if_pos h, if_pos (by simpa using h),
      lookup_append_right b _ _ (by simpa using h.1), lookup_cons_pair]
    simp
  · rw [if_neg h, if_neg (by simpa using h)]

lemma lookup_setDefaultMaxTokens_ne (cfg : Config) (b : Body) (k : String)
    (h : k ≠ "max_tokens") :
    (setDefaultMaxTokens cfg b).lookup k = b.lookup k := by
  unfold setDefaultMaxTokens
  by_cases hc : ¬ hasKey b "max_tokens" = true ∧ cfg.max_tokens > 0
  · rw [if_pos hc]
    by_cases hk : hasKey b k
    · rw [lookup_append_left b _ k hk]
    · simp only [Bool.not_eq_true] at hk
      rw [lookup_append_right b _ k hk, lookup_cons_pair,
        if_neg (by simp [h]), lookup_eq_none_of_not_hasKey b k hk]
      rfl
  · rw [if_neg hc]

lemma hasKey_setDefaultMaxTokens_ne (cfg : Config) (b : Body) (k : String)
    (h : k ≠ "max_tokens") :
    hasKey (setDefaultMaxTokens cfg b) k = hasKey b k := by
  unfold setDefaultMaxTokens
  by_cases hc : ¬ hasKey b "max_tokens" = true ∧ cfg.max_tokens > 0
  · rw [if_pos hc, hasKey_append, hasKey_cons]
    have : ("max_tokens" == k) = false := by
      rw [beq_eq_false_iff_ne]; exact fun e => h e.symm
    simp [this, hasKey]
  · rw [if_neg hc]

lemma prefix_setDefault (b : Body) (k : String) (v : JVal) :
    b <+: setDefault b k v := by
  unfold setDefault
  by_cases h : hasKey b k
  · rw [if_pos h]
  · rw [if_neg h]; exact List.prefix_append b _

lemma prefix_setDefaultMaxTokens (cfg : Config) (b : Body) :
    b <+: setDefaultMaxTokens cfg b := by
  unfold setDefaultMaxTokens
  by_cases h : ¬ hasKey b "max_tokens" = true ∧ cfg.max_tokens > 0
  · rw [if_pos h]; exact List.prefix_append b _
  · rw [if_neg h]

lemma prefix_mergeBody (cfg : Config) (b : Body) : b <+: mergeBody cfg b := by
  unfold mergeBody
  exact ((((((prefix_setDefault b _ _).trans
    (prefix_setDefaultMaxTokens cfg _)).trans
    (prefix_setDefault _ _ _)).trans
    (prefix_setDefault _ _ _)).trans
    (prefix_setDefault _ _ _)).trans
    (prefix_setDefault _ _ _))

lemma mergeBody_lookup_model (cfg : Config) (b : Body) :
    (mergeBody cfg b).lookup "model" =
      if hasKey b "model" then b.lookup "model"
      else some (JVal.str cfg.default_model) := by
  unfold mergeBody
  rw [lookup_setDefault_ne _ _ _ _ (by decide),
    lookup_setDefault_ne _ _ _ _ (by decide),
    lookup_setDefault_ne _ _ _ _ (by decide),
    lookup_setDefault_ne _ _ _ _ (by decide),
    lookup_setDefaultMaxTokens_ne _ _ _ (by decide),
    lookup_setDefault_self]

lemma mergeBody_lookup_max_tokens (cfg : Config) (b : Body) :
    (mergeBody cfg b).lookup "max_tokens" =
      if hasKey b "max_tokens" = false ∧ cfg.max_tokens > 0 then
        some (JVal.num (cfg.max_tokens : Rat))
      else b.lookup "max_tokens" := by
  unfold mergeBody
  rw [lookup_setDefault_ne _ _ _ _ (by decide),
    lookup_setDefault_ne _ _ _ _ (by decide),
    lookup_setDefault_ne _ _ _ _ (by decide),
    lookup_setDefault_ne _ _ _ _ (by decide),
    lookup_setDefaultMaxTokens_self,
    hasKey_setDefault_ne _ _ _ _ (by decide),
    lookup_setDefault_ne _ _ _ _ (by decide)]

lemma mergeBody_lookup_temperature (cfg : Config) (b : Body) :
    (mergeBody cfg b).lookup "temperature" =
      if hasKey b "temperature" then b.lookup "temperature"
      else some cfg.temperature := by
  unfold mergeBody
  rw [lookup_setDefault_ne _ _ _ _ (by decide),
    lookup_setDefault_ne _ _ _ _ (by decide),
    lookup_setDefault_ne _ _ _ _ (by decide),
    lookup_setDefault_self,
    hasKey_setDefaultMaxTokens_ne _ _ _ (by decide),
    hasKey_setDefault_ne _ _ _ _ (by decide),
    lookup_setDefaultMaxTokens_ne _ _ _ (by decide),
    lookup_setDefault_ne _ _ _ _ (by decide)]

lemma mergeBody_lookup_top_p (cfg : Config) (b : Body) :
    (mergeBody cfg b).lookup "top_p" =
      if hasKey b "top_p" then b.lookup "top_p" else some cfg.top_p := by
  unfold mergeBody
  rw [lookup_setDefault_ne _ _ _ _ (by decide),
    lookup_setDefault_ne _ _ _ _ (by decide),
    lookup_setDefault_self,
    hasKey_setDefault_ne _ _ _ _ (by decide),
    hasKey_setDefaultMaxTokens_ne _ _ _ (by decide),
    hasKey_setDefault_ne _ _ _ _ (by decide),
    lookup_setDefault_ne _ _ _ _ (by decide),
    lookup_setDefaultMaxTokens_ne _ _ _ (by decide),
    lookup_setDefault_ne _ _ _ _ (by decide)]

lemma mergeBody_lookup_frequency_penalty (cfg : Config) (b : Body) :
    (mergeBody cfg b).lookup "frequency_penalty" =
      if hasKey b "frequency_penalty" then b.lookup "frequency_penalty"
      else some cfg.frequency_penalty := by
  unfold mergeBody
  rw [lookup_setDefault_ne _ _ _ _ (by decide),
    lookup_setDefault_self,
    hasKey_setDefault_ne _ _ _ _ (by decide),
    hasKey_setDefault_ne _ _ _ _ (by decide),
    hasKey_setDefaultMaxTokens_ne _ _ _ (by decide),
    hasKey_setDefault_ne _ _ _ _ (by decide),
    lookup_setDefault_ne _ _ _ _ (by decide),
    lookup_setDefault_ne _ _ _ _ (by decide),
    lookup_setDefaultMaxTokens_ne _ _ _ (by decide),
    lookup_setDefault_ne _ _ _ _ (by decide)]

lemma mergeBody_lookup_presence_penalty (cfg : Config) (b : Body) :
    (mergeBody cfg b).lookup "presence_penalty" =
      if hasKey b "presence_penalty" then b.lookup "presence_penalty"
      else some cfg.presence_penalty := by
  unfold mergeBody
  rw [lookup_setDefault_self,
    hasKey_setDefault_ne _ _ _ _ (by decide),
    hasKey_setDefault_ne _ _ _ _ (by decide),
    hasKey_setDefault_ne _ _ _ _ (by decide),
    hasKey_setDefaultMaxTokens_ne _ _ _ (by decide),
    hasKey_setDefault_ne _ _ _ _ (by decide),
    lookup_setDefault_ne _ _ _ _ (by decide),
    lookup_setDefault_ne _ _ _ _ (by decide),
    lookup_setDefault_ne _ _ _ _ (by decide),
    lookup_setDefaultMaxTokens_ne _ _ _ (by decide),
    lookup_setDefault_ne _ _ _ _ (by decide)]

lemma mergeBody_lookup_other (cfg : Config) (b : Body) (k : String)
    (h : k ∉ knownKeys) : (mergeBody cfg b).lookup k = b.lookup k := by
  simp only [knownKeys, List.mem_cons, List.mem_singleton, not_or,
    List.not_mem_nil] at h
  unfold mergeBody
  rw [lookup_setDefault_ne _ _ _ _ h.2.2.2.2.2.1,
    lookup_setDefault_ne _ _ _ _ h.2.2.2.2.1,
    lookup_setDefault_ne _ _ _ _ h.2.2.2.1,
    lookup_setDefault_ne _ _ _ _ h.2.2.1,
    lookup_setDefaultMaxTokens_ne _ _ _ h.2.1,
    lookup_setDefault_ne _ _ _ _ h.1]

lemma lookup_auth_outbound (cfg : Config) (authHeader : Option String)
    (body : Body) :
    ((outboundRequest cfg authHeader body).headers).lookup "Authorization" =
      if cfg.api_key ≠ "" then some ("Bearer " ++ cfg.api_key)
      else if extractToken authHeader ≠ "" then
        some ("Bearer " ++ extractToken authHeader)
      else none := by
  show (buildHeaders cfg (extractToken authHeader)).lookup "Authorization" = _
  unfold buildHeaders
  by_cases h1 : cfg.api_key ≠ ""
  · rw [if_pos h1, if_pos h1]; rfl
  · rw [if_neg h1, if_neg h1]
    by_cases h2 : extractToken authHeader ≠ ""
    · rw [if_pos h2, if_pos h2]; rfl
    · rw [if_neg h2, if_neg h2]; rfl

/-- C2: each of the six known fields present in the caller's body reaches
the upstream unchanged; each of `model`, `temperature`, `top_p`,
`frequency_penalty`, `presence_penalty` absent from the body is filled with
the configured default; `max_tokens` is filled only when absent and the
configured default is positive; every other field passes through unchanged
(the caller's body is even a prefix of the outbound one). -/
theorem C2_default_param_injection (cfg : Config) (authHeader : Option String)
    (body : Body) :
    (∀ k, k ∈ knownKeys → hasKey body k = true →
        ((outboundRequest cfg authHeader body).body).lookup k = body.lookup k)
  ∧ (∀ k, k ∈ ["model", "temperature", "top_p", "frequency_penalty",
        "presence_penalty"] → hasKey body k = false →
        ((outboundRequest cfg authHeader body).body).lookup k =
          some (defaultJVal cfg k))
  ∧ (hasKey body "max_tokens" = false →
        ((outboundRequest cfg authHeader body).body).lookup "max_tokens" =
          if cfg.max_tokens > 0 then some (JVal.num (cfg.max_tokens : Rat))
          else none)
  ∧ (∀ k, k ∉ knownKeys →
        ((outboundRequest cfg authHeader body).body).lookup k = body.lookup k)
  ∧ body <+: (outboundRequest cfg authHeader body).body := by
  have hb : (outboundRequest cfg authHeader body).body = mergeBody cfg body :=
    rfl
  refine ⟨?_, ?_, ?_, ?_, ?_⟩
  · intro k hk hhas
    rw [hb]
    simp only [knownKeys, List.mem_cons, List.not_mem_nil, or_false] at hk
    rcases hk with rfl | rfl | rfl | rfl | rfl | rfl
    · rw [mergeBody_lookup_model, if_pos hhas]
    · rw [mergeBody_lookup_max_tokens, if_neg (by simp [hhas])]
    · rw [mergeBody_lookup_temperature, if_pos hhas]
    · rw [mergeBody_lookup_top_p, if_pos hhas]
    · rw [mergeBody_lookup_frequency_penalty, if_pos hhas]
    · rw [mergeBody_lookup_presence_penalty, if_pos hhas]
  · intro k hk habs
    rw [hb]
    simp only [List.mem_cons, List.not_mem_nil, or_false] at hk
    rcases hk with rfl | rfl | rfl | rfl | rfl
    · rw [mergeBody_lookup_model, if_neg (by simp [habs])]; rfl
    · rw [mergeBody_lookup_temperature, if_neg (by simp [habs])]; rfl
    · rw [mergeBody_lookup_top_p, if_neg (by simp [habs])]; rfl
    · rw [mergeBody_lookup_frequency_penalty, if_neg (by simp [habs])]; rfl
    · rw [mergeBody_lookup_presence_penalty, if_neg (by simp [habs])]; rfl
  · intro habs
    rw [hb, mergeBody_lookup_max_tokens]
    by_cases hmt : cfg.max_tokens > 0
    · rw [if_pos ⟨habs, hmt⟩, if_pos hmt]
    · rw [if_neg (by tauto), if_neg hmt,
        lookup_eq_none_of_not_hasKey body _ habs]
  · intro k hk
    rw [hb]
    exact mergeBody_lookup_other cfg body k hk
  · rw [hb]
    exact prefix_mergeBody cfg body

/-- C1: for every inbound chat-completion request, the outbound
`Authorization` header follows the fixed precedence of lines 142–147: a
non-empty configured credential always wins; else a non-empty caller token
is forwarded; else the outbound request carries no `Authorization` entry. -/
theorem C1_credential_precedence (cfg : Config) (authHeader : Option String)
    (body : Body) :
    ((outboundRequest cfg authHeader body).headers).lookup "Authorization" =
      if cfg.api_key ≠ "" then some ("Bearer " ++ cfg.api_key)
      else if extractToken authHeader ≠ "" then
        some ("Bearer " ++ extractToken authHeader)
      else none :=
  lookup_auth_outbound cfg authHeader body

/-- C2 witness: config `default-model="gpt-4"`, `max_tokens=2000`; the caller
posts `model` explicitly and omits the rest. -/
theorem C2_default_param_injection_witness :
    ((outboundRequest
        ⟨"", "https://api.openai.com/v1", "gpt-4", ["gpt-4"], "", 2000,
         JVal.num (7 / 10 : Rat), JVal.num 1, JVal.num 0, JVal.num 0⟩
        none
        [("model", JVal.str "gpt-3.5-turbo"), ("messages", JVal.arr [])]).body).lookup
        "model" = some (JVal.str "gpt-3.5-turbo")
  ∧ ((outboundRequest
        ⟨"", "https://api.openai.com/v1", "gpt-4", ["gpt-4"], "", 2000,
         JVal.num (7 / 10 : Rat), JVal.num 1, JVal.num 0, JVal.num 0⟩
        none
        [("model", JVal.str "gpt-3.5-turbo"), ("messages", JVal.arr [])]).body).lookup
        "temperature" = some (JVal.num (7 / 10 : Rat))
  ∧ ((outboundRequest
        ⟨"", "https://api.openai.com/v1", "gpt-4", ["gpt-4"], "", 2000,
         JVal.num (7 / 10 : Rat), JVal.num 1, JVal.num 0, JVal.num 0⟩
        none
        [("model", JVal.str "gpt-3.5-turbo"), ("messages", JVal.arr [])]).body).lookup
        "max_tokens" = some (JVal.num ((2000 : Int) : Rat))
  ∧ ((outboundRequest
        ⟨"", "https://api.openai.com/v1", "gpt-4", ["gpt-4"], "", 2000,
         JVal.num (7 / 10 : Rat), JVal.num 1, JVal.num 0, JVal.num 0⟩
        none
        [("model", JVal.str "gpt-3.5-turbo"), ("messages", JVal.arr [])]).body).lookup
        "messages" = some (JVal.arr []) := by
  have h := C2_default_param_injection
    ⟨"", "https://api.openai.com/v1", "gpt-4", ["gpt-4"], "", 2000,
     JVal.num (7 / 10 : Rat), JVal.num 1, JVal.num 0, JVal.num 0⟩
    none
    [("model", JVal.str "gpt-3.5-turbo"), ("messages", JVal.arr [])]
  refine ⟨?_, ?_, ?_, ?_⟩
  · rw [h.1 "model" (by decide) (by rfl)]; rfl
  · rw [h.2.1 "temperature" (by decide) (by rfl)]; rfl
  · rw [h.2.2.1 (by rfl)]; rfl
  · rw [h.2.2.2.1 "messages" (by decide)]; rfl

/-- C3 counterexample: `str.replace("Bearer ", "")` deletes every occurrence
of the substring, not just a leading prefix, so for the header value
`xBearer y` (which has no leading `Bearer ` prefix and should stay intact per
the claim) the code extracts `xy`. -/
theorem C3_counterexample :
    extractToken (some "xBearer y") = "xy"
  ∧ specExtractToken (some "xBearer y") = "xBearer y"
  ∧ ("xy" : String) ≠ "xBearer y" := by
  refine ⟨by decide, by decide, by decide⟩

/-- C3 amended: the caller's token is the header value with every occurrence
of the substring `Bearer ` removed (absent header ⇒ empty token, not an
error); with an empty configured credential the outbound header is
`Bearer <that token>` when it is non-empty, and omitted otherwise. -/
theorem C3_token_extraction_amended (cfg : Config) (authHeader : Option String)
    (body : Body) (h : cfg.api_key = "") :
    extractToken authHeader = pyRemoveAll (authHeader.getD "") "Bearer "
  ∧ extractToken none = ""
  ∧ ((outboundRequest cfg authHeader body).headers).lookup "Authorization" =
      (if extractToken authHeader ≠ "" then
        some ("Bearer " ++ extractToken authHeader)
      else none) := by
  refine ⟨rfl, rfl, ?_⟩
  rw [lookup_auth_outbound, if_neg (by simp [h])]

/-- C3 witness: config `api-key=""`, caller header
`Authorization: Bearer sk-test` ⇒ outbound `Authorization: Bearer sk-test`. -/
theorem C3_token_extraction_amended_witness :
    ((outboundRequest
        ⟨"", "https://api.openai.com/v1", "gpt-4", [], "", 0,
         JVal.null, JVal.null, JVal.null, JVal.null⟩
        (some "Bearer sk-test") []).headers).lookup "Authorization" =
      some ("Bearer sk-test") := by
  have h := (C3_token_extraction_amended
    ⟨"", "https://api.openai.com/v1", "gpt-4", [], "", 0,
     JVal.null, JVal.null, JVal.null, JVal.null⟩
    (some "Bearer sk-test") [] rfl).2.2
  rw [h]
  decide

/-- C10: with an empty configured credential, a caller header whose value
strips to the empty token (e.g. exactly `Bearer `) leaves the outbound
request identical to one with no `Authorization` header at all; in
particular the outbound headers are just `Content-Type`. -/
theorem C10_empty_token_like_absent (cfg : Config) (authHeader : Option String)
    (body : Body) (h : cfg.api_key = "") (h2 : extractToken authHeader = "") :
    (outboundRequest cfg authHeader body).headers =
      [("Content-Type", "application/json")]
  ∧ outboundRequest cfg authHeader body = outboundRequest cfg none body := by
  have he : extractToken authHeader = extractToken none := by rw [h2]; rfl
  constructor
  · show buildHeaders cfg (extractToken authHeader) = _
    unfold buildHeaders
    rw [if_neg (by simp [h]), if_neg (by simp [h2])]
  · unfold outboundRequest
    rw [he]

/-- C10 witness: the header `Authorization: Bearer ` (token strips to empty)
with an empty configured credential. -/
theorem C10_empty_token_like_absent_witness :
    (outboundRequest
        ⟨"", "https://api.openai.com/v1", "gpt-4", [], "", 0,
         JVal.null, JVal.null, JVal.null, JVal.null⟩
        (some "Bearer ") []).headers =
      [("Content-Type", "application/json")]
  ∧ outboundRequest
        ⟨"", "https://api.openai.com/v1", "gpt-4", [], "", 0,
         JVal.null, JVal.null, JVal.null, JVal.null⟩
        (some "Bearer ") [] =
      outboundRequest
        ⟨"", "https://api.openai.com/v1", "gpt-4", [], "", 0,
         JVal.null, JVal.null, JVal.null, JVal.null⟩
        none [] :=
  C10_empty_token_like_absent _ (some "Bearer ") [] rfl (by decide)

/-- C4: whenever a step of the handler raises (`request.json()` fails, or
the upstream call/response-decoding fails), the handler returns HTTP 500
with exactly the envelope `{"error": {"message": <string>, "type":
"server_error", "code": "internal_server_error"}}`; being a total function,
it never propagates the exception. -/
theorem C4_exception_envelope (cfg : Config) (authHeader : Option String)
    (upstream : OutboundReq → Except String (Nat × JVal)) :
    (∀ e, create_chat_completion cfg (Except.error e) authHeader upstream =
      ⟨500, JVal.obj [("error", JVal.obj
        [("message", JVal.str (handlerErrorMessage e)),
         ("type", JVal.str "server_error"),
         ("code", JVal.str "internal_server_error")])]⟩)
  ∧ (∀ body e,
      upstream (outboundRequest cfg authHeader body) = Except.error e →
      create_chat_completion cfg (Except.ok body) authHeader upstream =
        ⟨500, JVal.obj [("error", JVal.obj
          [("message", JVal.str (handlerErrorMessage e)),
           ("type", JVal.str "server_error"),
           ("code", JVal.str "internal_server_error")])]⟩) := by
  constructor
  · intro e; rfl
  · intro body e h
    simp only [create_chat_completion]
    rw [h]
    rfl

/-- C4 witness: a malformed JSON body (parse raises) and an upstream network
failure both yield the 500 envelope. -/
theorem C4_exception_envelope_witness :
    create_chat_completion
        ⟨"", "https://api.openai.com/v1", "gpt-4", [], "", 0,
         JVal.null, JVal.null, JVal.null, JVal.null⟩
        (Except.error "Expecting value: line 1 column 1 (char 0)") none
        (fun _ => Except.error "ClientConnectorError") =
      ⟨500, JVal.obj [("error", JVal.obj
        [("message", JVal.str
            (handlerErrorMessage "Expecting value: line 1 column 1 (char 0)")),
         ("type", JVal.str "server_error"),
         ("code", JVal.str "internal_server_error")])]⟩
  ∧ create_chat_completion
        ⟨"", "https://api.openai.com/v1", "gpt-4", [], "", 0,
         JVal.null, JVal.null, JVal.null, JVal.null⟩
        (Except.ok []) none (fun _ => Except.error "ClientConnectorError") =
      ⟨500, JVal.obj [("error", JVal.obj
        [("message", JVal.str (handlerErrorMessage "ClientConnectorError")),
         ("type", JVal.str "server_error"),
         ("code", JVal.str "internal_server_error")])]⟩ := by
  have h := C4_exception_envelope
    ⟨"", "https://api.openai.com/v1", "gpt-4", [], "", 0,
     JVal.null, JVal.null, JVal.null, JVal.null⟩
    none (fun _ => Except.error "ClientConnectorError")
  exact ⟨h.1 "Expecting value: line 1 column 1 (char 0)",
    h.2 [] "ClientConnectorError" rfl⟩

/-- C5: whatever status and JSON body the upstream answers with are relayed
to the original caller unchanged — in particular non-2xx statuses are passed
through, not converted to 500. -/
theorem C5_verbatim_relay (cfg : Config) (authHeader : Option String)
    (body : Body) (upstream : OutboundReq → Except String (Nat × JVal))
    (status : Nat) (j : JVal)
    (h : upstream (outboundRequest cfg authHeader body) =
      Except.ok (status, j)) :
    create_chat_completion cfg (Except.ok body) authHeader upstream =
      ⟨status, j⟩ := by
  simp only [create_chat_completion]
  rw [h]

/-- C5 witness: upstream HTTP 429 with body `{"error":"rate limited"}` comes
back to the caller as HTTP 429 with the identical body. -/
theorem C5_verbatim_relay_witness :
    create_chat_completion
        ⟨"", "https://api.openai.com/v1", "gpt-4", [], "", 0,
         JVal.null, JVal.null, JVal.null, JVal.null⟩
        (Except.ok []) none
        (fun _ =>
          Except.ok (429, JVal.obj [("error", JVal.str "rate limited")])) =
      ⟨429, JVal.obj [("error", JVal.str "rate limited")]⟩ :=
  C5_verbatim_relay _ none [] _ 429
    (JVal.obj [("error", JVal.str "rate limited")]) rfl

/-- C6: `GET /v1/models` answers `{"object":"list","data":[...]}` with
exactly one descriptor per configured model identifier, in configured order,
each descriptor carrying `id` = the identifier, `object` = `"model"`,
`created` = the handling-time clock value, `owned_by` =
`"organization-owner"`.  (`list_models` consults nothing but the configured
list: no upstream is involved in its embedding.) -/
theorem C6_list_models_descriptors (ms : List String) (now : Int) :
    jGet (list_models ms now) "object" = some (JVal.str "list")
  ∧ ((jGet (list_models ms now) "data").bind jItems).map List.length =
      some ms.length
  ∧ ∀ i : Nat,
      ((jGet (list_models ms now) "data").bind jItems).bind (fun ds => ds[i]?)
        = (ms[i]?).map (fun m => JVal.obj
            [("id", JVal.str m),
             ("object", JVal.str "model"),
             ("created", JVal.num (now : Rat)),
             ("owned_by", JVal.str "organization-owner")]) := by
  refine ⟨rfl, ?_, ?_⟩
  · show some ((ms.map _).length) = some ms.length
    rw [List.length_map]
  · intro i
    show (ms.map _)[i]? = _
    rw [List.getElem?_map]

/-- C7: a failed read/parse of either configuration source is absorbed by
the constructor's `except` branch (construction is a total function here),
and leaves the gateway with `enable = False`, so `on_enable` starts no
server. -/
theorem C7_config_failure_disables (mainRead : Except String MainToml)
    (pluginRead : Except String PluginToml)
    (h : (∃ e, mainRead = Except.error e) ∨
      (∃ e, pluginRead = Except.error e)) :
    enableFlag (pluginInit mainRead pluginRead) = false
  ∧ ∀ bot, (on_enable (pluginInit mainRead pluginRead) bot).serverStarted
      = false := by
  rcases h with ⟨e, rfl⟩ | ⟨e, rfl⟩
  · exact ⟨rfl, fun bot => rfl⟩
  · cases mainRead with
    | error e2 => exact ⟨rfl, fun bot => rfl⟩
    | ok mc => exact ⟨rfl, fun bot => rfl⟩

/-- C7 witness: the bot-wide config read raises `FileNotFoundError`. -/
theorem C7_config_failure_disables_witness :
    enableFlag (pluginInit (Except.error "FileNotFoundError: main_config.toml")
        (Except.ok ⟨some true, none, none, none, none, none, none, none, none,
          none, none, none, none, none, none, none, none⟩)) = false
  ∧ (on_enable (pluginInit (Except.error "FileNotFoundError: main_config.toml")
        (Except.ok ⟨some true, none, none, none, none, none, none, none, none,
          none, none, none, none, none, none, none, none⟩)) true).serverStarted
      = false := by
  have h := C7_config_failure_disables
    (Except.error "FileNotFoundError: main_config.toml")
    (Except.ok ⟨some true, none, none, none, none, none, none, none, none,
      none, none, none, none, none, none, none, none⟩)
    (Or.inl ⟨"FileNotFoundError: main_config.toml", rfl⟩)
  exact ⟨h.1, h.2 true⟩

/-- C8 (code bug): when construction fails before line 94 — true of both
config-file reads — the `server` attribute is never assigned, and
`on_disable`'s `if self.server:` then raises `AttributeError` instead of
being a safe no-op.  This evaluates the handler chain at such a history. -/
theorem C8_on_disable_raises_after_init_failure :
    on_disable (pluginInit
        (Except.error "FileNotFoundError: main_config.toml")
        (Except.error "unread")) =
      Except.error
        "AttributeError: 'OpenAIAPI' object has no attribute 'server'" := rfl

/-- C9: with the gateway enabled, admin notifications are attempted only
when a bot handle is supplied and the configured command-tip is non-empty;
with the empty default tip the server still starts but nobody is notified. -/
theorem C9_notify_gating (r : ReadyCfg) (server : Option Server) (bot : Bool)
    (h : r.enable = true) :
    ((on_enable (PluginState.ready r server) bot).notifyTargets ≠ [] →
      bot = true ∧ r.command_tip ≠ "")
  ∧ (r.command_tip = "" →
      (on_enable (PluginState.ready r server) bot).serverStarted = true
    ∧ (on_enable (PluginState.ready r server) bot).notifyTargets = []) := by
  simp only [on_enable, if_pos h]
  constructor
  · intro hne
    by_cases hb : bot = true ∧ r.command_tip ≠ ""
    · exact hb
    · exfalso
      apply hne
      have : ¬ (bot ∧ r.command_tip ≠ "") := by
        intro hc
        exact hb ⟨hc.1, hc.2⟩
      simp only [if_neg this]
  · intro htip
    refine ⟨by trivial, ?_⟩
    have : ¬ (bot ∧ r.command_tip ≠ "") := by
      intro hc
      exact hc.2 htip
    simp only [if_neg this]

/-- C9 witness: enabled gateway, bot supplied, empty command-tip (the
documented default): server starts, no admin notified; and with tip `"hi"`
an attempted notification implies both gating conditions. -/
theorem C9_notify_gating_witness :
    ((on_enable (PluginState.ready
        ⟨true, ⟨"", "u", "m", [], "", 0, JVal.null, JVal.null, JVal.null,
          JVal.null⟩, 8100, "0.0.0.0", "", 0, true, true, ["admin1"]⟩
        none) true).serverStarted = true
  ∧ (on_enable (PluginState.ready
        ⟨true, ⟨"", "u", "m", [], "", 0, JVal.null, JVal.null, JVal.null,
          JVal.null⟩, 8100, "0.0.0.0", "", 0, true, true, ["admin1"]⟩
        none) true).notifyTargets = [])
  ∧ (true = true ∧ ("hi" : String) ≠ "") := by
  constructor
  · exact (C9_notify_gating
      ⟨true, ⟨"", "u", "m", [], "", 0, JVal.null, JVal.null, JVal.null,
        JVal.null⟩, 8100, "0.0.0.0", "", 0, true, true, ["admin1"]⟩
      none true rfl).2 rfl
  · exact (C9_notify_gating
      ⟨true, ⟨"", "u", "m", [], "", 0, JVal.null, JVal.null, JVal.null,
        JVal.null⟩, 8100, "0.0.0.0", "hi", 0, true, true, ["admin1"]⟩
      none true rfl).1 (by decide)
